import Mathlib

/-!
Verification of the VitalGuard ESP32 on-device pipeline
(`src/esp32/esp32_main.py`): FIFO sample acquisition, decimation into
bounded windows, heart-rate and SpO2 estimation, cycle counting, and the
batching uplink buffer.  Python floats are modelled as exact rationals,
Python ints as `Nat`/`Int`, Python lists as `List`.
-/

namespace VitalGuard

/-! ## Constants (esp32_main.py top of file) -/

def SAMPLE_RATE_HZ : Nat := 10

def WINDOW_SECONDS : Nat := 8

def MIN_WINDOW_SECONDS : Nat := 4

def MAX_SAMPLES : Nat := SAMPLE_RATE_HZ * WINDOW_SECONDS

def SENSOR_SAMPLE_RATE_HZ : Nat := 100

def DOWNSAMPLE_FACTOR : Nat := SENSOR_SAMPLE_RATE_HZ / SAMPLE_RATE_HZ

/-! ## List helpers modelling Python slicing -/

/-- Python `l[len(l)-k:]` for `k ≥ 0`: the last `k` elements (whole list
when `k ≥ len`). -/
def lastN (k : Nat) (l : List α) : List α := l.drop (l.length - k)

/-- Python negative slice `l[-k:]`: for `k = 0` this is `l[0:] = l`,
otherwise the last `k` elements. -/
def negSlice (k : Nat) (l : List α) : List α :=
  if k = 0 then l else lastN k l

/-! ## CycleCounter (esp32_main.py lines 759-776) -/

structure CycleCounter where
  max_value : Nat
  value : Nat

/-- `CycleCounter.next`: increment `value`; wrap to 1 when it exceeds
`max_value`; return the new value together with the updated state. -/
def CycleCounter.next (c : CycleCounter) : Nat × CycleCounter :=
  let v := c.value + 1
  let v := if v > c.max_value then 1 else v
  (v, { c with value := v })

/-- Run `n` successive `next()` calls, collecting the returned values. -/
def runNexts : CycleCounter → Nat → List Nat × CycleCounter
  | c, 0 => ([], c)
  | c, n + 1 =>
    let r := c.next
    let rest := runNexts r.2 n
    (r.1 :: rest.1, rest.2)

/-! ## Data point assembly (esp32_main.py main loop, lines 820-839) -/

structure PpgPayload where
  ir : Nat
  red : Nat
  heartrate : ℚ
  spo2 : ℚ
  deriving DecidableEq

structure AccelPayload where
  ax : Int
  ay : Int
  az : Int
  deriving DecidableEq

structure VitalSigns where
  ppg : PpgPayload
  temperature : ℚ
  humidity : ℚ
  force : Nat
  accel : AccelPayload
  deriving DecidableEq

structure DataPoint where
  cycle : Nat
  timestamp : Int
  vital_signs : VitalSigns
  deriving DecidableEq

/-- The `data_point` dictionary built each cycle of the streaming loop:
every `None` among ir/red/heartrate/spo2 is replaced by the number `0`
(`0 if x is None else x`). -/
def data_point (cycle : Nat) (timestamp : Int)
    (ir red : Option Nat) (heartrate spo2 : Option ℚ)
    (temp_c humidity : ℚ) (force_value : Nat)
    (ax ay az : Int) : DataPoint :=
  { cycle := cycle
    timestamp := timestamp
    vital_signs :=
      { ppg :=
          { ir := match ir with | none => 0 | some x => x
            red := match red with | none => 0 | some x => x
            heartrate := match heartrate with | none => 0 | some x => x
            spo2 := match spo2 with | none => 0 | some x => x }
        temperature := temp_c
        humidity := humidity
        force := force_value
        accel := { ax := ax, ay := ay, az := az } } }

/-! ## VitalBatchSender (esp32_main.py lines 650-757)

The network is external: a send attempt's outcome is passed in as a
boolean oracle (`ok = true` iff `urequests.post` succeeds).  A method
returns the updated sender state together with the envelope actually
transmitted on a successful send (`none` when nothing was sent or the
send failed). -/

structure BatchInfo where
  start_cycle : Nat
  end_cycle : Nat
  total_points : Nat
  deriving DecidableEq

structure Envelope where
  device_id : String
  batch_info : BatchInfo
  data : List DataPoint
  deriving DecidableEq

structure SenderConfig where
  device_id : String
  batch_size : Nat
  max_buffer_points : Nat
  flush_interval_ms : Int

structure SenderState where
  buffer : List DataPoint
  last_send_ms : Int
  deriving DecidableEq

/-- `VitalBatchSender._send_buffer`: build the payload from the current
buffer and attempt one HTTP POST.  On success clear the buffer and record
the send time; on failure keep the buffer, trimmed to the newest
`max_buffer_points` via Python's `buffer[-max_buffer_points:]`. -/
def send_buffer (cfg : SenderConfig) (ok : Bool) (now_ms : Int)
    (s : SenderState) : SenderState × Option Envelope :=
  match s.buffer with
  | [] => (s, none)
  | p :: rest =>
    let buf := p :: rest
    let payload : Envelope :=
      { device_id := cfg.device_id
        batch_info :=
          { start_cycle := p.cycle
            end_cycle := (buf.getLast (by simp)).cycle
            total_points := buf.length }
        data := buf }
    if ok then
      ({ buffer := [], last_send_ms := now_ms }, some payload)
    else
      ({ s with buffer :=
          if buf.length > cfg.max_buffer_points then
            negSlice cfg.max_buffer_points buf
          else buf }, none)

/-- `VitalBatchSender.add_point`: append one point, enforce the hard
buffer limit by dropping the oldest points, then send if the batch size
is reached. -/
def add_point (cfg : SenderConfig) (ok : Bool) (point : DataPoint)
    (now_ms : Int) (s : SenderState) : SenderState × Option Envelope :=
  let buffer := s.buffer ++ [point]
  let buffer :=
    if buffer.length > cfg.max_buffer_points then
      buffer.drop (buffer.length - cfg.max_buffer_points)
    else buffer
  let s := { s with buffer := buffer }
  if buffer.length ≥ cfg.batch_size then
    send_buffer cfg ok now_ms s
  else
    (s, none)

/-- `VitalBatchSender.flush_if_due`: time-based flush when the buffer is
non-empty and the last send is old enough. -/
def flush_if_due (cfg : SenderConfig) (ok : Bool) (now_ms : Int)
    (s : SenderState) : SenderState × Option Envelope :=
  if s.buffer = [] then (s, none)
  else if now_ms - s.last_send_ms ≥ cfg.flush_interval_ms then
    send_buffer cfg ok now_ms s
  else (s, none)

/-- A whole sequence of `add_point` calls in which every network send
attempt fails (`ok = false` throughout). -/
def addPointsAllFail (cfg : SenderConfig) (now_ms : Int)
    (s : SenderState) (ps : List DataPoint) : SenderState :=
  ps.foldl (fun st p => (add_point cfg false p now_ms st).1) s

/-! ## MAX30102 FIFO reading (esp32_main.py lines 253-299)

The I2C bus is external: each loop iteration observes one `BusIter`
(the INT_STATUS_1 byte and the six FIFO data bytes read in that
iteration).  The bus is a stream `Nat → BusIter`, indexed by iteration
number.  The `while read_count < max_reads` loop is modelled with
explicit fuel; `none` means the fuel ran out with the loop still
running, `some samples` means the loop finished and returned. -/

structure BusIter where
  intr1 : Nat
  fifo : Nat → Nat

/-- Decode one FIFO burst channel: `((b0 << 16) | (b1 << 8) | b2) & 0x03FFFF`. -/
def decodeChan (b0 b1 b2 : Nat) : Nat :=
  ((b0 <<< 16) ||| (b1 <<< 8) ||| b2) &&& 0x03FFFF

/-- One state of the `_read_fifo_samples` while-loop: the samples list,
the `read_count`, and how many loop iterations have run (which bus
response comes next). -/
structure FifoLoopState where
  samples : List (Nat × Nat)
  read_count : Nat
  iter : Nat

/-- The `while read_count < max_reads` loop body of
`_read_fifo_samples`, run with fuel.  Each iteration reads INT_STATUS_1
(stopping when PPG_RDY is clear), reads a 6-byte record, decodes red and
ir, skips the record (`continue`, without touching `read_count`) when
both decode to zero, and otherwise appends it and increments
`read_count`. -/
def readFifoLoop (bus : Nat → BusIter) : Nat → FifoLoopState →
    Option (List (Nat × Nat))
  | 0, _ => none
  | fuel + 1, st =>
    if st.read_count < 32 then
      let b := bus st.iter
      if b.intr1 &&& 0x40 = 0 then
        some st.samples
      else
        let red := decodeChan (b.fifo 0) (b.fifo 1) (b.fifo 2)
        let ir := decodeChan (b.fifo 3) (b.fifo 4) (b.fifo 5)
        if red = 0 ∧ ir = 0 then
          readFifoLoop bus fuel { st with iter := st.iter + 1 }
        else
          readFifoLoop bus fuel
            { samples := st.samples ++ [(red, ir)]
              read_count := st.read_count + 1
              iter := st.iter + 1 }
    else
      some st.samples

/-- `MAX30102._read_fifo_samples` entered from its initial state
(`samples = []`, `read_count = 0`). -/
def read_fifo_samples (bus : Nat → BusIter) (fuel : Nat) :
    Option (List (Nat × Nat)) :=
  readFifoLoop bus fuel { samples := [], read_count := 0, iter := 0 }

/-! ## Window manager (esp32_main.py lines 301-324) -/

structure WindowState where
  red_window : List Nat
  ir_window : List Nat
  downsample_counter : Nat
  deriving DecidableEq

/-- The body of the `for red, ir in samples` loop of
`_update_window_from_sensor` applied to one raw sample pair: integer
decimation, append to both windows, and eviction of the oldest entry
from both windows when `MAX_SAMPLES` is exceeded. -/
def windowStep (s : WindowState) (p : Nat × Nat) : WindowState :=
  let c := s.downsample_counter + 1
  if c < DOWNSAMPLE_FACTOR then
    { s with downsample_counter := c }
  else
    let red_window := s.red_window ++ [p.1]
    let ir_window := s.ir_window ++ [p.2]
    if ir_window.length > MAX_SAMPLES then
      { red_window := red_window.drop 1
        ir_window := ir_window.drop 1
        downsample_counter := 0 }
    else
      { red_window := red_window
        ir_window := ir_window
        downsample_counter := 0 }

/-- `MAX30102._update_window_from_sensor` restricted to its pure part:
fold the decimation/window loop over a list of raw sample pairs (an
empty sample list leaves the state unchanged, as does the early
`return`). -/
def update_window_from_sensor (s : WindowState)
    (samples : List (Nat × Nat)) : WindowState :=
  samples.foldl windowStep s

/-! ## Heart-rate estimation (esp32_main.py lines 347-439)

Window contents are modelled as rationals (Python ints embed in them and
all later arithmetic is float arithmetic, modelled exactly). -/

/-- Python `max(l)` on a non-empty list (0 as an unused default). -/
def pyMax (l : List ℚ) : ℚ :=
  match l with
  | [] => 0
  | x :: xs => xs.foldl max x

/-- Python `min(l)` on a non-empty list (0 as an unused default). -/
def pyMin (l : List ℚ) : ℚ :=
  match l with
  | [] => 0
  | x :: xs => xs.foldl min x

/-- `MAX30102._moving_average`: sliding-window mean, padded back to the
original length by repeating the first computed average. -/
def moving_average (signal : List ℚ) (window : Nat) : List ℚ :=
  let n := signal.length
  if window ≤ 1 ∨ n ≤ window then signal
  else
    let s0 := (signal.take window).sum
    let step := fun (acc : ℚ × List ℚ) (i : Nat) =>
      let s := acc.1 + signal.getD i 0 - signal.getD (i - window) 0
      (s, acc.2 ++ [s / (window : ℚ)])
    let out := ((List.range' window (n - window)).foldl step
      (s0, [s0 / (window : ℚ)])).2
    List.replicate (window - 1) (out.headD 0) ++ out

/-- The peak-detection loop of `estimate_hr_simple`: scan indices
`1 .. len-2`, accept a strict local maximum above the threshold when at
least `min_distance` samples have passed since the last accepted peak
(`last_peak` starts at `-min_distance`). -/
def findPeaks (smoothed : List ℚ) (threshold : ℚ)
    (min_distance : Int) : List Int :=
  let step := fun (acc : List Int × Int) (i : Nat) =>
    if smoothed.getD i 0 > threshold ∧
       smoothed.getD i 0 > smoothed.getD (i - 1) 0 ∧
       smoothed.getD i 0 > smoothed.getD (i + 1) 0 then
      if (i : Int) - acc.2 ≥ min_distance then
        (acc.1 ++ [(i : Int)], (i : Int))
      else acc
    else acc
  ((List.range' 1 (smoothed.length - 1 - 1)).foldl step
    ([], -min_distance)).1

/-- The RR-interval loop of `estimate_hr_simple`: successive peak
differences in seconds, skipping non-positive differences. -/
def rrIntervals (peaks : List Int) : List ℚ :=
  (List.range' 1 (peaks.length - 1)).foldl
    (fun acc i =>
      let dt_samples := peaks.getD i 0 - peaks.getD (i - 1) 0
      if dt_samples ≤ 0 then acc
      else acc ++ [(dt_samples : ℚ) / (SAMPLE_RATE_HZ : ℚ)])
    []

/-- `min_samples` of `estimate_hr_simple`:
`int(SAMPLE_RATE_HZ * MIN_WINDOW_SECONDS)`. -/
def hr_min_samples : Nat := SAMPLE_RATE_HZ * MIN_WINDOW_SECONDS

/-- `data` of `estimate_hr_simple`: the last `WINDOW_SECONDS` worth of
the IR window. -/
def hr_data (ir_buffer : List ℚ) : List ℚ :=
  if ir_buffer.length > MAX_SAMPLES then lastN MAX_SAMPLES ir_buffer
  else ir_buffer

/-- `mean_val` of `estimate_hr_simple`. -/
def hr_mean_val (ir_buffer : List ℚ) : ℚ :=
  (hr_data ir_buffer).sum / ((hr_data ir_buffer).length : ℚ)

/-- `ac` of `estimate_hr_simple`: the DC-removed data. -/
def hr_ac (ir_buffer : List ℚ) : List ℚ :=
  (hr_data ir_buffer).map (fun x => x - hr_mean_val ir_buffer)

/-- `smoothed` of `estimate_hr_simple`. -/
def hr_smoothed (ir_buffer : List ℚ) : List ℚ :=
  moving_average (hr_ac ir_buffer) 5

/-- `max_val` of `estimate_hr_simple`. -/
def hr_max_val (ir_buffer : List ℚ) : ℚ := pyMax (hr_smoothed ir_buffer)

/-- `threshold` of `estimate_hr_simple`: 30% of the peak amplitude. -/
def hr_threshold (ir_buffer : List ℚ) : ℚ := 3 / 10 * hr_max_val ir_buffer

/-- `min_distance` of `estimate_hr_simple`:
`int(0.3 * SAMPLE_RATE_HZ) = 3`. -/
def hr_min_distance : Int := 3

/-- `peaks` of `estimate_hr_simple`. -/
def hr_peaks (ir_buffer : List ℚ) : List Int :=
  findPeaks (hr_smoothed ir_buffer) (hr_threshold ir_buffer)
    hr_min_distance

/-- `intervals` of `estimate_hr_simple`. -/
def hr_intervals (ir_buffer : List ℚ) : List ℚ :=
  rrIntervals (hr_peaks ir_buffer)

/-- `rr_mean` of `estimate_hr_simple`. -/
def hr_rr_mean (ir_buffer : List ℚ) : ℚ :=
  (hr_intervals ir_buffer).sum / ((hr_intervals ir_buffer).length : ℚ)

/-- `MAX30102.estimate_hr_simple` as a function of the IR window; each
local of the source is the correspondingly named `hr_*` definition. -/
def estimate_hr_simple (ir_buffer : List ℚ) : Option ℚ :=
  if ir_buffer.length < hr_min_samples then none
  else if hr_data ir_buffer = [] then none
  else if hr_max_val ir_buffer ≤ 0 then none
  else if (hr_peaks ir_buffer).length < 2 then none
  else if hr_intervals ir_buffer = [] then none
  else if hr_rr_mean ir_buffer ≤ 0 then none
  else some (60 / hr_rr_mean ir_buffer)

/-! ## SpO2 estimation (esp32_main.py lines 441-548)

`estimate_spo2_simple` reads the two windows and the persistent
smoothing state `_last_spo2`; it returns the result together with the
state after the call. -/

def spo2_alpha : ℚ := 3 / 10

/-- `min_samples` of `estimate_spo2_simple`:
`int(SAMPLE_RATE_HZ * max(4.0, MIN_WINDOW_SECONDS))`. -/
def spo2_min_samples : Nat := SAMPLE_RATE_HZ * max 4 MIN_WINDOW_SECONDS

/-- `n` of `estimate_spo2_simple`: `min(len(red_buffer), len(ir_buffer))`. -/
def spo2_n (red_buffer ir_buffer : List ℚ) : Nat :=
  min red_buffer.length ir_buffer.length

/-- `window_len` of `estimate_spo2_simple`: `min(n, MAX_SAMPLES)`. -/
def spo2_window_len (red_buffer ir_buffer : List ℚ) : Nat :=
  min (spo2_n red_buffer ir_buffer) MAX_SAMPLES

/-- `red_data` of `estimate_spo2_simple`: `red_buffer[-window_len:]`. -/
def red_data (red_buffer ir_buffer : List ℚ) : List ℚ :=
  lastN (spo2_window_len red_buffer ir_buffer) red_buffer

/-- `ir_data` of `estimate_spo2_simple`: `ir_buffer[-window_len:]`. -/
def ir_data (red_buffer ir_buffer : List ℚ) : List ℚ :=
  lastN (spo2_window_len red_buffer ir_buffer) ir_buffer

/-- `red_dc` of `estimate_spo2_simple`: mean of `red_data`. -/
def red_dc (red_buffer ir_buffer : List ℚ) : ℚ :=
  (red_data red_buffer ir_buffer).sum
    / ((red_data red_buffer ir_buffer).length : ℚ)

/-- `ir_dc` of `estimate_spo2_simple`: mean of `ir_data`. -/
def ir_dc (red_buffer ir_buffer : List ℚ) : ℚ :=
  (ir_data red_buffer ir_buffer).sum
    / ((ir_data red_buffer ir_buffer).length : ℚ)

/-- `red_ac` of `estimate_spo2_simple`: peak-to-peak of the DC-removed
red signal. -/
def red_ac (red_buffer ir_buffer : List ℚ) : ℚ :=
  pyMax ((red_data red_buffer ir_buffer).map
      (fun x => x - red_dc red_buffer ir_buffer))
    - pyMin ((red_data red_buffer ir_buffer).map
      (fun x => x - red_dc red_buffer ir_buffer))

/-- `ir_ac` of `estimate_spo2_simple`: peak-to-peak of the DC-removed
ir signal. -/
def ir_ac (red_buffer ir_buffer : List ℚ) : ℚ :=
  pyMax ((ir_data red_buffer ir_buffer).map
      (fun x => x - ir_dc red_buffer ir_buffer))
    - pyMin ((ir_data red_buffer ir_buffer).map
      (fun x => x - ir_dc red_buffer ir_buffer))

/-- `red_ratio` of `estimate_spo2_simple`: `red_ac / red_dc`. -/
def red_perfusion (red_buffer ir_buffer : List ℚ) : ℚ :=
  red_ac red_buffer ir_buffer / red_dc red_buffer ir_buffer

/-- `ir_ratio` of `estimate_spo2_simple`: `ir_ac / ir_dc`. -/
def ir_perfusion (red_buffer ir_buffer : List ℚ) : ℚ :=
  ir_ac red_buffer ir_buffer / ir_dc red_buffer ir_buffer

/-- `R` of `estimate_spo2_simple`: `red_ratio / ir_ratio`. -/
def spo2_R (red_buffer ir_buffer : List ℚ) : ℚ :=
  red_perfusion red_buffer ir_buffer / ir_perfusion red_buffer ir_buffer

/-- `raw_spo2` of `estimate_spo2_simple` after clamping:
`110 - 25*R`, then clamped to `[70, 100]` by the two `if`s of the
source. -/
def raw_spo2 (red_buffer ir_buffer : List ℚ) : ℚ :=
  let r := 110 - 25 * spo2_R red_buffer ir_buffer
  if r < 70 then 70 else if r > 100 then 100 else r

/-- `MAX30102.estimate_spo2_simple`: ratio-of-ratios SpO2 with
signal-quality gates and exponential smoothing; each local of the
source is the correspondingly named definition above.  Returns
`(result, new _last_spo2)`. -/
def estimate_spo2_simple (red_buffer ir_buffer : List ℚ)
    (last_spo2 : Option ℚ) : Option ℚ × Option ℚ :=
  if spo2_n red_buffer ir_buffer < spo2_min_samples then
    (none, last_spo2)
  else if red_data red_buffer ir_buffer = [] ∨
      ir_data red_buffer ir_buffer = [] then
    (none, last_spo2)
  else if red_dc red_buffer ir_buffer < 5000 ∨
      ir_dc red_buffer ir_buffer < 5000 then
    (none, last_spo2)
  else if red_ac red_buffer ir_buffer ≤ 0 ∨
      ir_ac red_buffer ir_buffer ≤ 0 then
    (none, last_spo2)
  else if red_perfusion red_buffer ir_buffer < 1 / 1000 ∧
      ir_perfusion red_buffer ir_buffer < 1 / 1000 then
    (none, last_spo2)
  else if red_perfusion red_buffer ir_buffer ≤ 0 ∨
      ir_perfusion red_buffer ir_buffer ≤ 0 then
    (none, last_spo2)
  else if spo2_R red_buffer ir_buffer < 1 / 5 ∨
      spo2_R red_buffer ir_buffer > 3 then
    (none, last_spo2)
  else
    let smoothed_spo2 :=
      match last_spo2 with
      | none => raw_spo2 red_buffer ir_buffer
      | some prior =>
        (1 - spo2_alpha) * prior
          + spo2_alpha * raw_spo2 red_buffer ir_buffer
    (some smoothed_spo2, some smoothed_spo2)

/-! ## Specification-side helper definitions -/

/-- Modelled from the spec's words (step 8 of the SpO2 estimator): one
exponential-smoothing step — `raw` when there is no prior estimate,
`(1 − α) × prior + α × raw` otherwise. -/
def emaStep (last_spo2 : Option ℚ) (raw : ℚ) : ℚ :=
  match last_spo2 with
  | none => raw
  | some prior => (1 - spo2_alpha) * prior + spo2_alpha * raw

/-- The raw sample pairs retained by the decimation loop when the
counter starts at `cnt`: every pair at which the counter reaches
`DOWNSAMPLE_FACTOR` (after which it resets to zero). -/
def keptPairs (cnt : Nat) : List (Nat × Nat) → List (Nat × Nat)
  | [] => []
  | p :: ps =>
    if cnt + 1 < DOWNSAMPLE_FACTOR then keptPairs (cnt + 1) ps
    else p :: keptPairs 0 ps

/-- A bus that always reports PPG_RDY and always returns an all-zero
FIFO record (both channels decode to zero). -/
def zeroBus : Nat → BusIter :=
  fun _ => { intr1 := 0x40, fifo := fun _ => 0 }

/-! ## Helper lemmas -/

theorem lastN_length (k : Nat) (l : List α) :
    (lastN k l).length = min l.length k := by
  simp [lastN, List.length_drop]
  omega

theorem lastN_all (k : Nat) (l : List α) (h : l.length ≤ k) :
    lastN k l = l := by
  simp [lastN, Nat.sub_eq_zero_of_le h]

theorem lastN_append_lastN (n : Nat) (l m : List α) :
    lastN n (lastN n l ++ m) = lastN n (l ++ m) := by
  have h0 : l.length - n - l.length = 0 := by omega
  have h1 : lastN n l ++ m = (l ++ m).drop (l.length - n) := by
    rw [lastN, List.drop_append_eq_append_drop, h0, List.drop_zero]
  rw [h1, lastN, lastN, List.drop_drop]
  simp only [List.length_drop, List.length_append]
  congr 1
  omega

theorem lastN_length_le (k : Nat) (l : List α) :
    (lastN k l).length ≤ k := by
  rw [lastN_length]; omega

/-! ## C1, C2: uplink batch buffer -/

theorem send_buffer_fail (cfg : SenderConfig) (now_ms : Int)
    (s : SenderState) (h : s.buffer.length ≤ cfg.max_buffer_points) :
    send_buffer cfg false now_ms s = (s, none) := by
  obtain ⟨buf, last⟩ := s
  cases buf with
  | nil => rfl
  | cons p rest =>
    simp only [send_buffer, Bool.false_eq_true, if_false]
    rw [if_neg]
    simpa using h

theorem add_point_fail_buffer (cfg : SenderConfig) (point : DataPoint)
    (now_ms : Int) (s : SenderState) :
    (add_point cfg false point now_ms s).1.buffer
      = lastN cfg.max_buffer_points (s.buffer ++ [point]) := by
  have htrim :
      (if (s.buffer ++ [point]).length > cfg.max_buffer_points then
        (s.buffer ++ [point]).drop
          ((s.buffer ++ [point]).length - cfg.max_buffer_points)
      else s.buffer ++ [point])
        = lastN cfg.max_buffer_points (s.buffer ++ [point]) := by
    by_cases hc : (s.buffer ++ [point]).length > cfg.max_buffer_points
    · rw [if_pos hc]; rfl
    · rw [if_neg hc]
      exact (lastN_all _ _ (by omega)).symm
  simp only [add_point, htrim]
  split
  · rw [send_buffer_fail]
    exact lastN_length_le _ _
  · rfl

theorem addPointsAllFail_buffer (cfg : SenderConfig) (now_ms : Int)
    (ps : List DataPoint) :
    ∀ s : SenderState, s.buffer.length ≤ cfg.max_buffer_points →
      (addPointsAllFail cfg now_ms s ps).buffer
        = lastN cfg.max_buffer_points (s.buffer ++ ps) := by
  induction ps with
  | nil =>
    intro s h
    simp [addPointsAllFail, lastN_all _ _ h]
  | cons p ps ih =>
    intro s h
    have hstep := add_point_fail_buffer cfg p now_ms s
    have hlen :
        ((add_point cfg false p now_ms s).1).buffer.length
          ≤ cfg.max_buffer_points := by
      rw [hstep]; exact lastN_length_le _ _
    simp only [addPointsAllFail, List.foldl_cons]
    have := ih (add_point cfg false p now_ms s).1 hlen
    simp only [addPointsAllFail] at this
    rw [this, hstep, lastN_append_lastN]
    simp

/-- C1: starting from an empty buffer, over any sequence of `add_point`
calls in which every send attempt fails, the buffer is always exactly
the most-recently-added points (in insertion order) capped at
`max_buffer_points`: its length is `min (number added) cap` (so it never
exceeds the cap), and once more than `max_buffer_points` points have
been added it holds exactly the newest `max_buffer_points` of them. -/
theorem batch_sender_all_fail_cap (cfg : SenderConfig)
    (t now_ms : Int) (ps : List DataPoint) :
    (addPointsAllFail cfg now_ms ⟨[], t⟩ ps).buffer
        = lastN cfg.max_buffer_points ps ∧
    (addPointsAllFail cfg now_ms ⟨[], t⟩ ps).buffer.length
        = min ps.length cfg.max_buffer_points ∧
    (ps.length > cfg.max_buffer_points →
      (addPointsAllFail cfg now_ms ⟨[], t⟩ ps).buffer
          = ps.drop (ps.length - cfg.max_buffer_points) ∧
      (addPointsAllFail cfg now_ms ⟨[], t⟩ ps).buffer.length
          = cfg.max_buffer_points) := by
  have hmain := addPointsAllFail_buffer cfg now_ms ps ⟨[], t⟩ (by simp)
  simp only [List.nil_append] at hmain
  refine ⟨hmain, ?_, ?_⟩
  · rw [hmain, lastN_length]
  · intro hgt
    refine ⟨by rw [hmain]; rfl, ?_⟩
    rw [hmain, lastN_length]
    omega

/-- A minimal concrete data point used by the buffer witnesses. -/
def testPoint (c : Nat) : DataPoint :=
  data_point c 0 none none none none 0 0 0 0 0 0

/-- C1 witness: capacity 2, three points added under permanent send
failure — the buffer ends as the newest two points. -/
theorem batch_sender_all_fail_cap_witness :
    (addPointsAllFail ⟨"esp32_001", 2, 2, 5000⟩ 0 ⟨[], 0⟩
        [testPoint 1, testPoint 2, testPoint 3]).buffer
      = lastN 2 [testPoint 1, testPoint 2, testPoint 3] ∧
    (addPointsAllFail ⟨"esp32_001", 2, 2, 5000⟩ 0 ⟨[], 0⟩
        [testPoint 1, testPoint 2, testPoint 3]).buffer.length
      = min 3 2 ∧
    ((addPointsAllFail ⟨"esp32_001", 2, 2, 5000⟩ 0 ⟨[], 0⟩
        [testPoint 1, testPoint 2, testPoint 3]).buffer
      = [testPoint 1, testPoint 2, testPoint 3].drop (3 - 2) ∧
     (addPointsAllFail ⟨"esp32_001", 2, 2, 5000⟩ 0 ⟨[], 0⟩
        [testPoint 1, testPoint 2, testPoint 3]).buffer.length = 2) :=
  ⟨(batch_sender_all_fail_cap ⟨"esp32_001", 2, 2, 5000⟩ 0 0
      [testPoint 1, testPoint 2, testPoint 3]).1,
   (batch_sender_all_fail_cap ⟨"esp32_001", 2, 2, 5000⟩ 0 0
      [testPoint 1, testPoint 2, testPoint 3]).2.1,
   (batch_sender_all_fail_cap ⟨"esp32_001", 2, 2, 5000⟩ 0 0
      [testPoint 1, testPoint 2, testPoint 3]).2.2 (by decide)⟩

/-- C2: a failing flush returns the sender state completely unchanged
(buffer contents, order, and `last_send_ms`); a subsequent flush whose
send succeeds transmits an envelope carrying the device id, the first
and last buffered cycle, the count, and exactly the still-buffered
points in order — then empties the buffer and records the send time. -/
theorem flush_fail_then_success (cfg : SenderConfig) (now1 now2 : Int)
    (s : SenderState) (hlen : s.buffer.length ≤ cfg.max_buffer_points)
    (hne : s.buffer ≠ []) :
    send_buffer cfg false now1 s = (s, none) ∧
    (∃ env : Envelope,
      send_buffer cfg true now2 (send_buffer cfg false now1 s).1
        = (⟨[], now2⟩, some env) ∧
      env.device_id = cfg.device_id ∧
      env.data = s.buffer ∧
      env.batch_info.total_points = s.buffer.length ∧
      env.batch_info.start_cycle = (s.buffer.head hne).cycle ∧
      env.batch_info.end_cycle = (s.buffer.getLast hne).cycle) := by
  have hfail := send_buffer_fail cfg now1 s hlen
  refine ⟨hfail, ?_⟩
  rw [hfail]
  obtain ⟨buf, last⟩ := s
  cases buf with
  | nil => exact absurd rfl hne
  | cons p rest =>
    refine ⟨⟨cfg.device_id,
             ⟨p.cycle, ((p :: rest).getLast (by simp)).cycle,
              (p :: rest).length⟩,
             p :: rest⟩, ?_, rfl, rfl, rfl, rfl, rfl⟩
    simp [send_buffer]

/-- C2 witness: two buffered points, capacity 2 — the failed flush is a
no-op and the successful one ships exactly those two points. -/
theorem flush_fail_then_success_witness :
    send_buffer ⟨"esp32_001", 2, 2, 5000⟩ false 7
        ⟨[testPoint 1, testPoint 2], 0⟩
      = (⟨[testPoint 1, testPoint 2], 0⟩, none) ∧
    (∃ env : Envelope,
      send_buffer ⟨"esp32_001", 2, 2, 5000⟩ true 9
          (send_buffer ⟨"esp32_001", 2, 2, 5000⟩ false 7
            ⟨[testPoint 1, testPoint 2], 0⟩).1
        = (⟨[], 9⟩, some env) ∧
      env.device_id = "esp32_001" ∧
      env.data = [testPoint 1, testPoint 2] ∧
      env.batch_info.total_points = [testPoint 1, testPoint 2].length ∧
      env.batch_info.start_cycle
        = ([testPoint 1, testPoint 2].head (by decide)).cycle ∧
      env.batch_info.end_cycle
        = ([testPoint 1, testPoint 2].getLast (by decide)).cycle) :=
  flush_fail_then_success ⟨"esp32_001", 2, 2, 5000⟩ 7 9
    ⟨[testPoint 1, testPoint 2], 0⟩ (by decide) (by decide)

/-! ## C3: FIFO read-loop bound -/

theorem readFifoLoop_zeroBus_stuck :
    ∀ (fuel iter : Nat),
      readFifoLoop zeroBus fuel
        { samples := [], read_count := 0, iter := iter } = none := by
  intro fuel
  induction fuel with
  | zero => intro iter; rfl
  | succ n ih =>
    intro iter
    show readFifoLoop zeroBus (n + 1) _ = none
    rw [readFifoLoop]
    simp only [zeroBus, decodeChan]
    norm_num
    exact ih (iter + 1)

/-- C3: the claim that `_read_fifo_samples` always terminates after at
most 32 record reads is FALSE on the code: on a bus stream that always
reports PPG_RDY and always returns an all-zero FIFO record, the
`continue` on a zero sample skips the `read_count += 1`, so the
`while read_count < max_reads` loop never makes progress and never
exits — for every amount of fuel the loop is still running. -/
theorem read_fifo_samples_nonterminating_on_zero_stream :
    ∀ fuel : Nat, read_fifo_samples zeroBus fuel = none := by
  intro fuel
  exact readFifoLoop_zeroBus_stuck fuel 0

/-! ## C4: decimation and window maintenance -/

theorem keptPairs_length :
    ∀ (ps : List (Nat × Nat)) (cnt : Nat), cnt < DOWNSAMPLE_FACTOR →
      (keptPairs cnt ps).length = (cnt + ps.length) / DOWNSAMPLE_FACTOR := by
  intro ps
  induction ps with
  | nil =>
    intro cnt h
    simp [keptPairs, Nat.div_eq_of_lt h]
  | cons p ps ih =>
    intro cnt h
    by_cases hc : cnt + 1 < DOWNSAMPLE_FACTOR
    · rw [keptPairs, if_pos hc, ih (cnt + 1) hc]
      congr 1
      simp
      omega
    · have hD : cnt + 1 = DOWNSAMPLE_FACTOR := by omega
      have hDpos : 0 < DOWNSAMPLE_FACTOR := by omega
      rw [keptPairs, if_neg hc]
      simp only [List.length_cons, ih 0 hDpos, Nat.zero_add]
      have harg : cnt + (ps.length + 1) = ps.length + DOWNSAMPLE_FACTOR := by
        omega
      rw [harg, Nat.add_div_right _ hDpos]

theorem windowStep_skip (s : WindowState) (p : Nat × Nat)
    (hc : s.downsample_counter + 1 < DOWNSAMPLE_FACTOR) :
    windowStep s p = { s with downsample_counter :=
      s.downsample_counter + 1 } := by
  rw [windowStep, if_pos hc]

theorem update_window_spec :
    ∀ (ps : List (Nat × Nat)) (s : WindowState),
      s.downsample_counter < DOWNSAMPLE_FACTOR →
      s.red_window.length = s.ir_window.length →
      s.ir_window.length ≤ MAX_SAMPLES →
      (update_window_from_sensor s ps).red_window
        = lastN MAX_SAMPLES (s.red_window
            ++ (keptPairs s.downsample_counter ps).map Prod.fst) ∧
      (update_window_from_sensor s ps).ir_window
        = lastN MAX_SAMPLES (s.ir_window
            ++ (keptPairs s.downsample_counter ps).map Prod.snd) := by
  intro ps
  induction ps with
  | nil =>
    intro s _ heq hle
    constructor
    · simp [update_window_from_sensor, keptPairs,
        lastN_all MAX_SAMPLES s.red_window (by omega)]
    · simp [update_window_from_sensor, keptPairs,
        lastN_all MAX_SAMPLES s.ir_window hle]
  | cons p ps ih =>
    intro s hcnt heq hle
    have hfold :
        update_window_from_sensor s (p :: ps)
          = update_window_from_sensor (windowStep s p) ps := rfl
    by_cases hc : s.downsample_counter + 1 < DOWNSAMPLE_FACTOR
    · rw [hfold, windowStep_skip s p hc, keptPairs, if_pos hc]
      exact ih _ hc heq hle
    · have hDpos : 0 < DOWNSAMPLE_FACTOR := by decide
      rw [hfold, keptPairs, if_neg hc]
      by_cases hov : (s.ir_window ++ [p.2]).length > MAX_SAMPLES
      · have hstep : windowStep s p
            = { red_window := (s.red_window ++ [p.1]).drop 1
                ir_window := (s.ir_window ++ [p.2]).drop 1
                downsample_counter := 0 } := by
          rw [windowStep, if_neg hc, if_pos hov]
        have hlen : s.ir_window.length = MAX_SAMPLES := by
          simp at hov; omega
        have hred : (s.red_window ++ [p.1]).drop 1
            = lastN MAX_SAMPLES (s.red_window ++ [p.1]) := by
          rw [lastN]
          congr 1
          simp
          omega
        have hir : (s.ir_window ++ [p.2]).drop 1
            = lastN MAX_SAMPLES (s.ir_window ++ [p.2]) := by
          rw [lastN]
          congr 1
          simp
          omega
        obtain ⟨ihr, ihi⟩ := ih (windowStep s p)
          (by rw [hstep]; exact hDpos)
          (by rw [hstep]; simp; omega)
          (by rw [hstep]; simp; omega)
        rw [hstep] at ihr ihi
        simp only [hstep]
        rw [ihr, ihi, hred, hir, lastN_append_lastN, lastN_append_lastN]
        constructor
        · congr 1
          simp
        · congr 1
          simp
      · have hstep : windowStep s p
            = { red_window := s.red_window ++ [p.1]
                ir_window := s.ir_window ++ [p.2]
                downsample_counter := 0 } := by
          rw [windowStep, if_neg hc, if_neg hov]
        obtain ⟨ihr, ihi⟩ := ih (windowStep s p)
          (by rw [hstep]; exact hDpos)
          (by rw [hstep]; simp; omega)
          (by rw [hstep]; simp at hov ⊢; omega)
        rw [hstep] at ihr ihi
        simp only [hstep]
        rw [ihr, ihi]
        constructor
        · congr 1
          simp
        · congr 1
          simp

/-- C4: from decimation counter 0 and equal-length windows within
capacity, processing N raw pairs retains exactly `⌊N / D⌋` of them
(appended in order to both windows), the two windows stay the same
length, that length is `min (old + ⌊N / D⌋) MAX_SAMPLES` (never above
`MAX_SAMPLES`), and on overflow both windows lose their oldest entries
together (each window is the capped suffix of old-entries-then-new). -/
theorem window_update_spec (ps : List (Nat × Nat)) (s : WindowState)
    (hcnt : s.downsample_counter = 0)
    (heq : s.red_window.length = s.ir_window.length)
    (hle : s.ir_window.length ≤ MAX_SAMPLES) :
    (keptPairs 0 ps).length = ps.length / DOWNSAMPLE_FACTOR ∧
    (update_window_from_sensor s ps).red_window
      = lastN MAX_SAMPLES (s.red_window
          ++ (keptPairs 0 ps).map Prod.fst) ∧
    (update_window_from_sensor s ps).ir_window
      = lastN MAX_SAMPLES (s.ir_window
          ++ (keptPairs 0 ps).map Prod.snd) ∧
    (update_window_from_sensor s ps).red_window.length
      = (update_window_from_sensor s ps).ir_window.length ∧
    (update_window_from_sensor s ps).ir_window.length
      = min (s.ir_window.length + ps.length / DOWNSAMPLE_FACTOR)
          MAX_SAMPLES ∧
    (update_window_from_sensor s ps).ir_window.length ≤ MAX_SAMPLES := by
  have hDpos : 0 < DOWNSAMPLE_FACTOR := by decide
  have hkept := keptPairs_length ps 0 hDpos
  rw [Nat.zero_add] at hkept
  obtain ⟨hr, hi⟩ := update_window_spec ps s (hcnt ▸ hDpos) heq hle
  rw [hcnt] at hr hi
  refine ⟨hkept, hr, hi, ?_, ?_, ?_⟩
  · rw [hr, hi, lastN_length, lastN_length]
    simp [heq]
  · rw [hi, lastN_length]
    simp [hkept]
  · rw [hi, lastN_length]
    omega

/-- C4 witness: ten raw pairs through an empty window state with
factor 10 retain exactly one pair. -/
theorem window_update_spec_witness :
    (keptPairs 0 (List.replicate 10 (5, 6))).length
      = (List.replicate 10 ((5 : Nat), (6 : Nat))).length
          / DOWNSAMPLE_FACTOR ∧
    (update_window_from_sensor ⟨[], [], 0⟩
        (List.replicate 10 (5, 6))).red_window
      = lastN MAX_SAMPLES ([]
          ++ (keptPairs 0 (List.replicate 10 (5, 6))).map Prod.fst) ∧
    (update_window_from_sensor ⟨[], [], 0⟩
        (List.replicate 10 (5, 6))).ir_window
      = lastN MAX_SAMPLES ([]
          ++ (keptPairs 0 (List.replicate 10 (5, 6))).map Prod.snd) ∧
    (update_window_from_sensor ⟨[], [], 0⟩
        (List.replicate 10 (5, 6))).red_window.length
      = (update_window_from_sensor ⟨[], [], 0⟩
          (List.replicate 10 (5, 6))).ir_window.length ∧
    (update_window_from_sensor ⟨[], [], 0⟩
        (List.replicate 10 (5, 6))).ir_window.length
      = min (([] : List Nat).length
          + (List.replicate 10 ((5 : Nat), (6 : Nat))).length
              / DOWNSAMPLE_FACTOR) MAX_SAMPLES ∧
    (update_window_from_sensor ⟨[], [], 0⟩
        (List.replicate 10 (5, 6))).ir_window.length ≤ MAX_SAMPLES :=
  window_update_spec (List.replicate 10 (5, 6)) ⟨[], [], 0⟩
    rfl rfl (by decide)

/-! ## C5: cycle counter -/

theorem runNexts_range (m : Nat) :
    ∀ (n v : Nat), v + n ≤ m →
      runNexts ⟨m, v⟩ n = (List.range' (v + 1) n, ⟨m, v + n⟩) := by
  intro n
  induction n with
  | zero => intro v _; simp [runNexts]
  | succ k ih =>
    intro v hv
    have h1 : ¬ (v + 1 > m) := by omega
    have hstep : (CycleCounter.next ⟨m, v⟩) = (v + 1, ⟨m, v + 1⟩) := by
      simp [CycleCounter.next, h1]
    have h2 : v + 1 + k ≤ m := by omega
    simp only [runNexts, hstep, ih (v + 1) h2]
    rw [List.range'_succ]
    have h3 : v + 1 + k = v + (k + 1) := by omega
    rw [h3]

/-- C5: with `max_value = m ≥ 1` and initial value 0, the first `next()`
returns 1; `m + 1` successive calls return exactly `1, 2, …, m, 1`; and
after any call (from any stored value) the stored value lies in
`[1, m]`. -/
theorem cycle_counter_spec (m : Nat) (hm : 1 ≤ m) :
    (CycleCounter.next ⟨m, 0⟩).1 = 1 ∧
    (runNexts ⟨m, 0⟩ (m + 1)).1 = List.range' 1 m ++ [1] ∧
    (∀ v : Nat, 1 ≤ (CycleCounter.next ⟨m, v⟩).2.value ∧
      (CycleCounter.next ⟨m, v⟩).2.value ≤ m) := by
  refine ⟨?_, ?_, ?_⟩
  · simp [CycleCounter.next]
  · have hsplit : ∀ (c : CycleCounter) (a b : Nat),
        runNexts c (a + b)
          = ((runNexts c a).1 ++ (runNexts (runNexts c a).2 b).1,
             (runNexts (runNexts c a).2 b).2) := by
      intro c a
      induction a generalizing c with
      | zero => intro b; simp [runNexts]
      | succ k ih =>
        intro b
        have : k + 1 + b = (k + b) + 1 := by omega
        rw [this]
        simp only [runNexts, ih (CycleCounter.next c).2 b]
        simp
    rw [hsplit ⟨m, 0⟩ m 1, runNexts_range m m 0 (by omega)]
    have hgt : m + 1 > m := by omega
    have hwrap : CycleCounter.next ⟨m, m⟩ = (1, ⟨m, 1⟩) := by
      simp [CycleCounter.next, hgt]
    simp [runNexts, hwrap]
  · intro v
    simp only [CycleCounter.next]
    by_cases h : v + 1 > m <;> simp [h] <;> omega

/-- C5 witness: the cycle-counter specification at `max_value = 3`. -/
theorem cycle_counter_spec_witness :
    (CycleCounter.next ⟨3, 0⟩).1 = 1 ∧
    (runNexts ⟨3, 0⟩ 4).1 = List.range' 1 3 ++ [1] ∧
    (∀ v : Nat, 1 ≤ (CycleCounter.next ⟨3, v⟩).2.value ∧
      (CycleCounter.next ⟨3, v⟩).2.value ≤ 3) :=
  cycle_counter_spec 3 (by decide)

/-! ## C6: SpO2 calibration formula and smoothing -/

theorem raw_spo2_eq_min_max (red_buffer ir_buffer : List ℚ) :
    raw_spo2 red_buffer ir_buffer
      = min 100 (max 70 (110 - 25 * spo2_R red_buffer ir_buffer)) := by
  simp only [raw_spo2, min_def, max_def]
  split_ifs <;> linarith

/-- C6: whenever every signal-quality gate passes (the estimator
returns a value `v`), `v` is the raw value `110 − 25R` clamped to
`[70, 100]` smoothed against the prior state: with no prior estimate
`v` is the raw value itself, and with prior `s1` it is
`0.7 × s1 + 0.3 × raw` (α = 0.3); `v` is then persisted as the new
smoothing state. -/
theorem estimate_spo2_formula (red_buffer ir_buffer : List ℚ)
    (last_spo2 : Option ℚ) (v : ℚ) (st : Option ℚ)
    (h : estimate_spo2_simple red_buffer ir_buffer last_spo2
      = (some v, st)) :
    v = emaStep last_spo2
        (min 100 (max 70 (110 - 25 * spo2_R red_buffer ir_buffer))) ∧
    st = some v ∧
    (last_spo2 = none →
      v = min 100 (max 70 (110 - 25 * spo2_R red_buffer ir_buffer))) ∧
    (∀ s1 : ℚ, last_spo2 = some s1 →
      v = 7 / 10 * s1
        + 3 / 10
          * min 100 (max 70 (110 - 25 * spo2_R red_buffer ir_buffer))) := by
  have hraw := raw_spo2_eq_min_max red_buffer ir_buffer
  unfold estimate_spo2_simple at h
  repeat' split at h
  all_goals try (injection h with h1 h2; exact Option.noConfusion h1)
  · injection h with h1 h2
    injection h1 with h1
    subst h1
    exact ⟨by simpa [emaStep] using hraw, h2.symm,
      fun _ => hraw, fun s1 hs => Option.noConfusion hs⟩
  · rename_i prior
    injection h with h1 h2
    injection h1 with h1
    subst h1
    refine ⟨?_, h2.symm, fun hc => Option.noConfusion hc, ?_⟩
    · simp only [emaStep]
      rw [hraw]
    · intro s1 hs
      injection hs with hs
      subst hs
      rw [← hraw]
      norm_num [spo2_alpha]

/-- Red witness window for the SpO2 estimator: DC 10000, peak-to-peak
2000 (perfusion ratio 0.2). -/
def spo2WitnessRed : List ℚ :=
  List.replicate 20 9000 ++ List.replicate 20 11000

/-- IR witness window for the SpO2 estimator: DC 10000, peak-to-peak
1000 (perfusion ratio 0.1), so `R = 2` and `110 − 25R = 60` clamps
to 70. -/
def spo2WitnessIr : List ℚ :=
  List.replicate 20 9500 ++ List.replicate 20 10500

set_option maxHeartbeats 16000000 in
/-- C6 witness: with prior estimate 90 and windows giving raw value 70,
the estimator returns `0.7 × 90 + 0.3 × 70 = 84` and persists it. -/
theorem estimate_spo2_formula_witness :
    estimate_spo2_simple spo2WitnessRed spo2WitnessIr (some 90)
      = (some 84, some 84) ∧
    (84 : ℚ) = emaStep (some 90)
        (min 100 (max 70 (110 - 25 * spo2_R spo2WitnessRed spo2WitnessIr))) ∧
    (some (84 : ℚ)) = some 84 ∧
    ((84 : ℚ)
      = 7 / 10 * 90
        + 3 / 10
          * min 100 (max 70 (110 - 25 * spo2_R spo2WitnessRed spo2WitnessIr))) := by
  have hEval :
      estimate_spo2_simple spo2WitnessRed spo2WitnessIr (some 90)
        = (some 84, some 84) := by
    norm_num [estimate_spo2_simple, spo2_min_samples, spo2_n,
      spo2_window_len, red_data, ir_data, red_dc, ir_dc, red_ac, ir_ac,
      red_perfusion, ir_perfusion, spo2_R, raw_spo2, spo2_alpha,
      spo2WitnessRed, spo2WitnessIr, pyMax, pyMin, lastN,
      MAX_SAMPLES, SAMPLE_RATE_HZ, MIN_WINDOW_SECONDS, WINDOW_SECONDS,
      List.replicate, max_def, min_def]
    exact ⟨by simp, by simp⟩
  have hc := estimate_spo2_formula spo2WitnessRed spo2WitnessIr
    (some 90) 84 (some 84) hEval
  exact ⟨hEval, hc.1, hc.2.1 ▸ rfl, hc.2.2.2 90 rfl⟩

/-! ## C7: short window makes the HR estimator unavailable -/

/-- C7: whenever the IR window holds fewer than
`SAMPLE_RATE_HZ × MIN_WINDOW_SECONDS` samples, `estimate_hr_simple`
returns `None`. -/
theorem estimate_hr_short_window_none (ir_buffer : List ℚ)
    (h : ir_buffer.length < SAMPLE_RATE_HZ * MIN_WINDOW_SECONDS) :
    estimate_hr_simple ir_buffer = none := by
  simp [estimate_hr_simple, hr_min_samples, h]

/-- C7 witness: the empty window is shorter than the minimum and yields
no estimate. -/
theorem estimate_hr_short_window_none_witness :
    ([] : List ℚ).length < SAMPLE_RATE_HZ * MIN_WINDOW_SECONDS ∧
    estimate_hr_simple [] = none :=
  ⟨by decide, estimate_hr_short_window_none [] (by decide)⟩

/-! ## C8: an available heart-rate estimate is strictly positive -/

/-- C8: whenever `estimate_hr_simple` returns a value rather than
`None`, that value is strictly positive, for any contents of the IR
window. -/
theorem estimate_hr_positive (ir_buffer : List ℚ) (v : ℚ)
    (h : estimate_hr_simple ir_buffer = some v) : 0 < v := by
  unfold estimate_hr_simple at h
  repeat' split at h
  all_goals try exact Option.noConfusion h
  rename_i hrr
  injection h with h1
  rw [← h1]
  exact div_pos (by norm_num) (not_le.mp hrr)

/-- A concrete IR window for the heart-rate estimator: four 10-sample
triangle-wave periods, i.e. a 1 Hz pulse at the 10 Hz effective rate. -/
def hrWitnessWindow : List ℚ :=
  [0, 1, 2, 3, 4, 5, 4, 3, 2, 1, 0, 1, 2, 3, 4, 5, 4, 3, 2, 1,
   0, 1, 2, 3, 4, 5, 4, 3, 2, 1, 0, 1, 2, 3, 4, 5, 4, 3, 2, 1]

set_option maxHeartbeats 16000000 in
/-- C8 witness: on the triangle-wave window the estimator returns
60 bpm, and the theorem yields its positivity. -/
theorem estimate_hr_positive_witness :
    estimate_hr_simple hrWitnessWindow = some 60 ∧ (0 : ℚ) < 60 := by
  have h : estimate_hr_simple hrWitnessWindow = some 60 := by
    norm_num [estimate_hr_simple, hr_min_samples, hr_data, hr_max_val,
      hr_smoothed, hr_ac, hr_mean_val, hr_peaks, hr_threshold,
      hr_min_distance, hr_intervals, hr_rr_mean, hrWitnessWindow,
      moving_average, findPeaks, rrIntervals, pyMax, pyMin, lastN,
      MAX_SAMPLES, SAMPLE_RATE_HZ, MIN_WINDOW_SECONDS, WINDOW_SECONDS,
      List.range', List.replicate, max_def, min_def]
    exact ⟨by simp, fun hc => by simp at hc⟩
  exact ⟨h, estimate_hr_positive hrWitnessWindow 60 h⟩

/-! ## C9: a `None` SpO2 result leaves the smoothing state untouched -/

/-- C9: whenever `estimate_spo2_simple` returns `None` (any gate
failed), the persistent `_last_spo2` state after the call equals the
state before the call. -/
theorem estimate_spo2_none_preserves_state
    (red_buffer ir_buffer : List ℚ) (last_spo2 st : Option ℚ)
    (h : estimate_spo2_simple red_buffer ir_buffer last_spo2 = (none, st)) :
    st = last_spo2 := by
  unfold estimate_spo2_simple at h
  repeat' split at h
  all_goals
    first
      | (injection h with h1 h2; exact h2.symm)
      | (injection h with h1 h2; exact Option.noConfusion h1)

/-- C9 witness: empty windows fail the data-length gate and the state
(here a prior estimate of 95) is preserved. -/
theorem estimate_spo2_none_preserves_state_witness :
    estimate_spo2_simple [] [] (some 95) = (none, some 95) ∧
    (some (95 : ℚ)) = some 95 :=
  ⟨by decide,
   estimate_spo2_none_preserves_state [] [] (some 95) (some 95)
     (by decide)⟩

/-! ## C10: unavailable readings serialize as the number 0 -/

/-- C10: in every assembled data point, a `None` ir/red/heartrate/spo2
reading appears in the nested ppg object as the number 0 (a present
numeric field, never null/absent), so the point built from `None` is
indistinguishable from one built from a literal 0. -/
theorem data_point_none_is_zero (cycle : Nat) (timestamp : Int)
    (ir red : Option Nat) (heartrate spo2 : Option ℚ)
    (temp_c humidity : ℚ) (force_value : Nat) (ax ay az : Int) :
    ((data_point cycle timestamp ir red heartrate spo2 temp_c humidity
        force_value ax ay az).vital_signs.ppg.ir = ir.getD 0 ∧
     (data_point cycle timestamp ir red heartrate spo2 temp_c humidity
        force_value ax ay az).vital_signs.ppg.red = red.getD 0 ∧
     (data_point cycle timestamp ir red heartrate spo2 temp_c humidity
        force_value ax ay az).vital_signs.ppg.heartrate = heartrate.getD 0 ∧
     (data_point cycle timestamp ir red heartrate spo2 temp_c humidity
        force_value ax ay az).vital_signs.ppg.spo2 = spo2.getD 0) ∧
    data_point cycle timestamp none none none none temp_c humidity
        force_value ax ay az
      = data_point cycle timestamp (some 0) (some 0) (some 0) (some 0)
          temp_c humidity force_value ax ay az := by
  refine ⟨⟨?_, ?_, ?_, ?_⟩, ?_⟩ <;>
    cases ir <;> cases red <;> cases heartrate <;> cases spo2 <;>
      simp [data_point]

end VitalGuard
